import Mathlib

/-!
Shallow embedding of the trace-correlation layer of the otel-go-dbm service:
the SQL correlation annotator (main.go, addDatadogSQLComment and
escapeSQLCommentValue), the span classification processor
(main.go, sqlSpanProcessorWrapper.OnStart) and the trace-context log
decorator (log package, NewTraceHandler and TraceHandler.Handle).

Ambient data that the Go code reads implicitly (the span found in the
context, and the process environment variables) is threaded through as
explicit parameters, following the spec's data model: a TraceContext value
carries the identifiers, the sampling decision, the recording flag and the
validity flag of the ambient span; an Env value carries the three
environment variables the annotator consults.
-/

/-- TraceContext models the ambient span data read through
trace.SpanFromContext: recording is span.IsRecording(), traceID and spanID
are the big-endian integer values of the 16-byte trace id and the 8-byte
span id of span.SpanContext(), sampled is
span.SpanContext().TraceFlags().IsSampled(), and valid is
span.SpanContext().IsValid(). -/
structure TraceContext where
  recording : Bool
  traceID : Nat
  spanID : Nat
  sampled : Bool
  valid : Bool
deriving DecidableEq

/-- Env models the three process environment variables consulted by
addDatadogSQLComment; the empty string stands for an unset variable,
exactly the distinction Go's os.Getenv plus the non-empty check in
getEnv makes. -/
structure Env where
  otelServiceName : String := ""
  otelResourceAttributes : String := ""
  ddEnv : String := ""
deriving DecidableEq

/-- getEnvD models getEnv (main.go): return the variable's value when it is
non-empty, the default otherwise. -/
def getEnvD (value default : String) : String :=
  if value ≠ "" then value else default

/-- squoteChar is the single-quote character (code point 39). -/
def squoteChar : Char := Char.ofNat 39

/-- backslashChar is the backslash character (code point 92). -/
def backslashChar : Char := Char.ofNat 92

/-- escapeChars translates strings.ReplaceAll(s, single-quote,
backslash-quote) character by character; since the pattern is a single
character, ReplaceAll is exactly this per-character expansion. -/
def escapeChars : List Char → List Char
  | [] => []
  | c :: rest =>
    if c = squoteChar then backslashChar :: squoteChar :: escapeChars rest
    else c :: escapeChars rest

/-- escapeSQLCommentValue models escapeSQLCommentValue (main.go line 354):
replace every single quote by a backslash-escaped single quote. -/
def escapeSQLCommentValue (s : String) : String :=
  String.mk (escapeChars s.data)

/-- hexDigit maps a value below 16 to its lowercase hexadecimal digit,
as Go's %x verb renders each nibble. -/
def hexDigit (n : Nat) : Char :=
  match n with
  | 0 => '0'
  | 1 => '1'
  | 2 => '2'
  | 3 => '3'
  | 4 => '4'
  | 5 => '5'
  | 6 => '6'
  | 7 => '7'
  | 8 => '8'
  | 9 => '9'
  | 10 => 'a'
  | 11 => 'b'
  | 12 => 'c'
  | 13 => 'd'
  | 14 => 'e'
  | 15 => 'f'
  | _ => '0'

/-- hexPad w n renders n as exactly w lowercase hexadecimal digits, most
significant first (zero-padded), the effect of Go's %032x and %016x verbs
on the 16-byte trace id and 8-byte span id. -/
def hexPad : Nat → Nat → List Char
  | 0, _ => []
  | w + 1, n => hexPad w (n / 16) ++ [hexDigit (n % 16)]

/-- traceIDHex models the 32-character rendering of a trace id: both
fmt.Sprintf with %032x in addDatadogSQLComment and TraceID.String() in the
log decorator hex-encode the 16 bytes to 32 lowercase hex characters. -/
def traceIDHex (tid : Nat) : String :=
  String.mk (hexPad 32 tid)

/-- spanIDHex models the 16-character rendering of a span id: both
fmt.Sprintf with %016x in addDatadogSQLComment and SpanID.String() in the
log decorator hex-encode the 8 bytes to 16 lowercase hex characters. -/
def spanIDHex (sid : Nat) : String :=
  String.mk (hexPad 16 sid)

/-- isLowerHexChar decides whether a character is a lowercase hexadecimal
digit, the alphabet [0-9a-f] named by the spec's invariants. -/
def isLowerHexChar (c : Char) : Bool :=
  (48 ≤ c.toNat && c.toNat ≤ 57) || (97 ≤ c.toNat && c.toNat ≤ 102)

/-- datadogTraceparent models lines 309-317 of main.go: the traceparent
string is built from the span context's ids with the flag suffix written
literally as 01, whatever the sampling decision. -/
def datadogTraceparent (ctx : TraceContext) : String :=
  "00-" ++ traceIDHex ctx.traceID ++ "-" ++ spanIDHex ctx.spanID ++ "-01"

/-- splitChar models strings.Split for a one-character separator:
splitting the empty list yields one empty field, and every separator
occurrence opens a new field. -/
def splitChar (sep : Char) : List Char → List (List Char)
  | [] => [[]]
  | c :: rest =>
    match splitChar sep rest with
    | [] => [[]]
    | h :: t => if c = sep then [] :: h :: t else (c :: h) :: t

/-- deploymentEnvKey is the characters of the resource-attribute key prefix
scanned by addDatadogSQLComment. -/
def deploymentEnvKey : List Char := "deployment.environment=".data

/-- resolveDatadogEnv models lines 290-307 of main.go: read
OTEL_RESOURCE_ATTRIBUTES; when empty fall back to DD_ENV or the literal
advent; otherwise scan the comma-separated parts and, at the first part
carrying the deployment.environment= prefix, keep its suffix; when no part
carries the prefix, the whole attribute string is kept as the environment. -/
def resolveDatadogEnv (e : Env) : String :=
  let env := getEnvD e.otelResourceAttributes ""
  if env = "" then getEnvD e.ddEnv "advent"
  else
    match (splitChar ',' env.data).find? (fun part => deploymentEnvKey.isPrefixOf part) with
    | some part => String.mk (part.drop deploymentEnvKey.length)
    | none => env

/-- datadogServiceName models line 290 of main.go: the service name read
from OTEL_SERVICE_NAME with default otel-go-dbm; line 293 sets the
database service name to the same value. -/
def datadogServiceName (e : Env) : String :=
  getEnvD e.otelServiceName "otel-go-dbm"

/-- datadogVersion is the hard-coded process version of line 292. -/
def datadogVersion : String := "1.0.0"

/-- datadogCommentParts models lines 319-336 of main.go: the ordered
key/value pairs rendered as key='escaped value', each appended only when
its value is non-empty, in the fixed order dddbs, dde, ddps, ddpv,
traceparent. -/
def datadogCommentParts (e : Env) (ctx : TraceContext) : List String :=
  (if datadogServiceName e ≠ "" then
    ["dddbs=\x27" ++ escapeSQLCommentValue (datadogServiceName e) ++ "\x27"] else []) ++
  (if resolveDatadogEnv e ≠ "" then
    ["dde=\x27" ++ escapeSQLCommentValue (resolveDatadogEnv e) ++ "\x27"] else []) ++
  (if datadogServiceName e ≠ "" then
    ["ddps=\x27" ++ escapeSQLCommentValue (datadogServiceName e) ++ "\x27"] else []) ++
  (if datadogVersion ≠ "" then
    ["ddpv=\x27" ++ escapeSQLCommentValue datadogVersion ++ "\x27"] else []) ++
  (if datadogTraceparent ctx ≠ "" then
    ["traceparent=\x27" ++ escapeSQLCommentValue (datadogTraceparent ctx) ++ "\x27"] else [])

/-- datadogCommentBlock models line 342 of main.go: the parts joined by
commas and wrapped in a block comment. -/
def datadogCommentBlock (e : Env) (ctx : TraceContext) : String :=
  "/*" ++ String.intercalate "," (datadogCommentParts e ctx) ++ "*/"

/-- addDatadogSQLComment models addDatadogSQLComment (main.go lines
277-351): when the ambient span is not recording the statement is returned
unchanged; otherwise the comment block is prepended, separated by one
space, unless the key/value list came out empty. -/
def addDatadogSQLComment (e : Env) (ctx : TraceContext) (query : String) : String :=
  if !ctx.recording then query
  else
    if datadogCommentParts e ctx = [] then query
    else datadogCommentBlock e ctx ++ " " ++ query

/-- SpanData models the part of a read-write span that
sqlSpanProcessorWrapper.OnStart inspects and mutates: its name and its
attribute list of key/value string pairs. -/
structure SpanData where
  name : String
  attrs : List (String × String)
deriving DecidableEq

/-- sqlSpanIsSQL models the classification test of OnStart (main.go lines
153-171): the span name carries the database/sql. prefix, or some existing
attribute has the db.system key. -/
def sqlSpanIsSQL (s : SpanData) : Bool :=
  "database/sql.".data.isPrefixOf s.name.data ||
    s.attrs.any (fun a => a.1 = "db.system")

/-- sqlSpanProcessorOnStart models OnStart (main.go lines 150-177): when
the classification test matches, SetAttributes appends the span.type=sql
attribute; otherwise the span is left untouched. -/
def sqlSpanProcessorOnStart (s : SpanData) : SpanData :=
  if sqlSpanIsSQL s then { s with attrs := s.attrs ++ [("span.type", "sql")] }
  else s

/-- SlogValue models the two kinds of slog attribute values the trace
handler produces: strings and booleans. -/
inductive SlogValue where
  | str : String → SlogValue
  | bool : Bool → SlogValue
deriving DecidableEq

/-- SlogAttr models one slog attribute: a key with a value. -/
structure SlogAttr where
  key : String
  value : SlogValue
deriving DecidableEq

/-- TraceHandlerConfig models the log package's TraceHandlerConfig: three
key-name overrides whose zero value (the empty string) means unset. -/
structure TraceHandlerConfig where
  traceIDKey : String := ""
  spanIDKey : String := ""
  traceSampledKey : String := ""
deriving DecidableEq

/-- newTraceHandlerConfig models the configuration resolution of
NewTraceHandler (log package lines 31-47): start from the default keys
trace_id, span_id and trace_sampled, and overwrite each with the caller's
field when the caller passed a config and the field is non-empty. -/
def newTraceHandlerConfig (config : Option TraceHandlerConfig) : TraceHandlerConfig :=
  match config with
  | none => { traceIDKey := "trace_id", spanIDKey := "span_id", traceSampledKey := "trace_sampled" }
  | some c =>
    { traceIDKey := if c.traceIDKey ≠ "" then c.traceIDKey else "trace_id",
      spanIDKey := if c.spanIDKey ≠ "" then c.spanIDKey else "span_id",
      traceSampledKey := if c.traceSampledKey ≠ "" then c.traceSampledKey else "trace_sampled" }

/-- traceHandlerHandle models TraceHandler.Handle (log package lines
56-67) as its effect on the record's attribute list: when the ambient span
context is valid, AddAttrs appends the trace id and span id as lowercase
hex strings and the sampling decision as a boolean, under the configured
keys; otherwise the record passes to the wrapped handler unchanged. -/
def traceHandlerHandle (cfg : TraceHandlerConfig) (ctx : TraceContext)
    (r : List SlogAttr) : List SlogAttr :=
  if ctx.valid then
    r ++ [⟨cfg.traceIDKey, .str (traceIDHex ctx.traceID)⟩,
          ⟨cfg.spanIDKey, .str (spanIDHex ctx.spanID)⟩,
          ⟨cfg.traceSampledKey, .bool ctx.sampled⟩]
  else r

/-- specOrderedPairs is the spec-side description of the correlation
metadata (spec section 6): the five key/value pairs in the fixed order
db-service, environment, process-service, process-version, traceparent,
with the values the annotator resolves. -/
def specOrderedPairs (e : Env) (ctx : TraceContext) : List (String × String) :=
  [("dddbs", datadogServiceName e),
   ("dde", resolveDatadogEnv e),
   ("ddps", datadogServiceName e),
   ("ddpv", datadogVersion),
   ("traceparent", datadogTraceparent ctx)]

/-- specCommentBlock is the spec-side description of the correlation
comment wire format (spec sections 4.3 and 6): drop the pairs with empty
values, render each survivor as key='escaped value', join with commas, and
wrap as a block comment. -/
def specCommentBlock (pairs : List (String × String)) : String :=
  "/*" ++
    String.intercalate ","
      ((pairs.filter (fun p => p.2 != "")).map
        (fun p => p.1 ++ "=\x27" ++ escapeSQLCommentValue p.2 ++ "\x27")) ++
    "*/"

/-- hexPad always renders exactly the requested number of digits. -/
theorem hexPad_length (w : Nat) : ∀ n : Nat, (hexPad w n).length = w := by
  induction w with
  | zero => intro n; rfl
  | succ w ih => intro n; simp [hexPad, ih]

/-- hexDigit applied to any value below 16 yields a lowercase hex digit. -/
theorem hexDigit_lower : ∀ m : Fin 16, isLowerHexChar (hexDigit m.val) = true := by
  decide

/-- every character hexPad emits is a lowercase hex digit. -/
theorem hexPad_lower (w : Nat) :
    ∀ n : Nat, ∀ c ∈ hexPad w n, isLowerHexChar c = true := by
  induction w with
  | zero => intro n c hc; simp [hexPad] at hc
  | succ w ih =>
    intro n c hc
    simp only [hexPad, List.mem_append, List.mem_singleton] at hc
    rcases hc with hc | hc
    · exact ih (n / 16) c hc
    · subst hc
      exact hexDigit_lower ⟨n % 16, Nat.mod_lt _ (by decide)⟩

/-- the trace id rendering has 32 characters. -/
theorem traceIDHex_length (tid : Nat) : (traceIDHex tid).length = 32 :=
  hexPad_length 32 tid

/-- the span id rendering has 16 characters. -/
theorem spanIDHex_length (sid : Nat) : (spanIDHex sid).length = 16 :=
  hexPad_length 16 sid

/-- the traceparent string is never empty. -/
theorem datadogTraceparent_ne_empty (ctx : TraceContext) :
    datadogTraceparent ctx ≠ "" := by
  intro h
  have hl := congrArg String.length h
  simp [datadogTraceparent, String.length_append, traceIDHex_length,
    spanIDHex_length] at hl

/-- the comment part list always ends with the traceparent pair, so it is
never empty. -/
theorem datadogCommentParts_ne_nil (e : Env) (ctx : TraceContext) :
    datadogCommentParts e ctx ≠ [] := by
  simp [datadogCommentParts, datadogTraceparent_ne_empty ctx,
    List.append_eq_nil]

/-- for a recording span, the annotator prepends the comment block and one
space. -/
theorem addDatadogSQLComment_recording (e : Env) (ctx : TraceContext)
    (q : String) (h : ctx.recording = true) :
    addDatadogSQLComment e ctx q = datadogCommentBlock e ctx ++ " " ++ q := by
  simp [addDatadogSQLComment, h, datadogCommentParts_ne_nil e ctx]

/-- reading a variable with an empty default is the identity. -/
theorem getEnvD_empty_default (v : String) : getEnvD v "" = v := by
  by_cases h : v = "" <;> simp [getEnvD, h]

/-- the comment part list of the code equals the spec-side rendering of
the ordered pair list: filter out empty values, render, in that order. -/
theorem datadogCommentParts_eq_spec (e : Env) (ctx : TraceContext) :
    datadogCommentParts e ctx =
      ((specOrderedPairs e ctx).filter (fun p => p.2 != "")).map
        (fun p => p.1 ++ "=\x27" ++ escapeSQLCommentValue p.2 ++ "\x27") := by
  have htp := datadogTraceparent_ne_empty ctx
  by_cases h1 : datadogServiceName e = "" <;>
    by_cases h2 : resolveDatadogEnv e = "" <;>
      simp [datadogCommentParts, specOrderedPairs, List.filter_cons,
        h1, h2, htp, datadogVersion]

/-- the comment block of the code equals the spec-side wire format. -/
theorem datadogCommentBlock_eq_spec (e : Env) (ctx : TraceContext) :
    datadogCommentBlock e ctx = specCommentBlock (specOrderedPairs e ctx) := by
  rw [datadogCommentBlock, specCommentBlock, datadogCommentParts_eq_spec]

/-- escaping expands every single quote to backslash-quote and keeps every
other character. -/
theorem escapeChars_eq_flatMap (l : List Char) :
    escapeChars l =
      l.flatMap (fun c => if c = squoteChar then [backslashChar, squoteChar] else [c]) := by
  induction l with
  | nil => rfl
  | cons c rest ih =>
    by_cases h : c = squoteChar <;> simp [escapeChars, h, ih]

/-- escaping preserves the number of single quotes. -/
theorem escapeChars_count (l : List Char) :
    (escapeChars l).count squoteChar = l.count squoteChar := by
  have hbs : (squoteChar == backslashChar) = false := by decide
  have hss : (squoteChar == squoteChar) = true := by decide
  induction l with
  | nil => rfl
  | cons c rest ih =>
    by_cases h : c = squoteChar
    · subst h
      simp [escapeChars, List.count_cons, ih, hbs, hss,
        show ¬backslashChar = squoteChar by decide]
    · have hcs : (squoteChar == c) = false := by
        simp [beq_iff_eq]
        exact fun hq => h hq.symm
      simp [escapeChars, h, List.count_cons, ih, hcs]

/-- Claim C1: for every SQL statement, when the ambient trace context is
invalid (no active recording span), the annotator returns the statement
unchanged, with no comment prepended. -/
theorem c1_invalid_context_passthrough (e : Env) (ctx : TraceContext)
    (q : String) (h : ctx.recording = false) :
    addDatadogSQLComment e ctx q = q := by
  simp [addDatadogSQLComment, h]

/-- Witness for C1 at a concrete statement and a non-recording context. -/
theorem c1_witness :
    addDatadogSQLComment {} (TraceContext.mk false 0 0 false false) "SELECT 1"
      = "SELECT 1" :=
  c1_invalid_context_passthrough {} (TraceContext.mk false 0 0 false false)
    "SELECT 1" rfl

/-- Counterexample to claim C2: for the valid context with trace id 1,
span id 2 and sampling decision false, the annotator still renders the
flag suffix 01, not the 00 the claim requires; the full annotator output
at that context carries the same 01 flag. -/
theorem c2_counterexample :
    (TraceContext.mk true 1 2 false true).sampled = false ∧
    datadogTraceparent (TraceContext.mk true 1 2 false true)
      = "00-00000000000000000000000000000001-0000000000000002-01" ∧
    datadogTraceparent (TraceContext.mk true 1 2 false true)
      ≠ "00-00000000000000000000000000000001-0000000000000002-00" ∧
    addDatadogSQLComment {} (TraceContext.mk true 1 2 false true) "SELECT 1"
      = "/*dddbs=\x27otel-go-dbm\x27,dde=\x27advent\x27,ddps=\x27otel-go-dbm\x27,ddpv=\x271.0.0\x27,traceparent=\x2700-00000000000000000000000000000001-0000000000000002-01\x27*/ SELECT 1" := by
  exact ⟨rfl, by decide, by decide, by decide⟩

/-- Claim C2 as amended: for every trace context, the traceparent produced
by the annotator has the form 00-, a 32-character lowercase hex trace id,
a 16-character lowercase hex span id, and the fixed two-character flag
suffix 01, regardless of the sampling decision. -/
theorem c2_traceparent_format (ctx : TraceContext) :
    ∃ a b : String,
      datadogTraceparent ctx = "00-" ++ a ++ "-" ++ b ++ "-01" ∧
      a.length = 32 ∧ b.length = 16 ∧
      (∀ c ∈ a.data, isLowerHexChar c = true) ∧
      (∀ c ∈ b.data, isLowerHexChar c = true) ∧
      datadogTraceparent { ctx with sampled := true } =
        datadogTraceparent { ctx with sampled := false } := by
  refine ⟨traceIDHex ctx.traceID, spanIDHex ctx.spanID, rfl,
    traceIDHex_length ctx.traceID, spanIDHex_length ctx.spanID, ?_, ?_, rfl⟩
  · exact fun c hc => hexPad_lower 32 ctx.traceID c hc
  · exact fun c hc => hexPad_lower 16 ctx.spanID c hc

/-- Witness for C2's amended theorem: at a concrete context, the sampling
decision does not change the traceparent. -/
theorem c2_witness :
    datadogTraceparent (TraceContext.mk true 3 4 true true) =
      datadogTraceparent (TraceContext.mk true 3 4 false true) := by
  obtain ⟨a, b, _, _, _, _, _, h6⟩ :=
    c2_traceparent_format (TraceContext.mk true 3 4 true true)
  exact h6

/-- Claim C3: for every statement and recording trace context, the
annotator's output is exactly one comment block holding the ordered pairs
dddbs, dde, ddps, ddpv, traceparent rendered as key='value', comma
separated with no trailing comma, pairs with empty values omitted,
followed by exactly one space and the original statement. -/
theorem c3_comment_wire_format (e : Env) (ctx : TraceContext) (q : String)
    (h : ctx.recording = true) :
    addDatadogSQLComment e ctx q =
      specCommentBlock (specOrderedPairs e ctx) ++ " " ++ q := by
  rw [addDatadogSQLComment_recording e ctx q h, datadogCommentBlock_eq_spec]

/-- Witness for C3 at a concrete environment, context and statement. -/
theorem c3_witness :
    addDatadogSQLComment {} (TraceContext.mk true 1 2 true true) "SELECT 1"
      = specCommentBlock (specOrderedPairs {} (TraceContext.mk true 1 2 true true))
          ++ " " ++ "SELECT 1" :=
  c3_comment_wire_format {} (TraceContext.mk true 1 2 true true) "SELECT 1" rfl

/-- Counterexample to claim C4: with the override unset and the non-empty
resource-attribute string foo=bar that holds no deployment-environment
key, the code resolves the environment to the whole string foo=bar, not
the fixed default advent the claim requires; moreover with the override
set to prod and the resource-attribute string carrying
deployment.environment=staging, the code resolves staging, not the
override the claim prefers. -/
theorem c4_counterexample :
    resolveDatadogEnv { otelResourceAttributes := "foo=bar" } = "foo=bar" ∧
    resolveDatadogEnv { otelResourceAttributes := "foo=bar" } ≠ "advent" ∧
    resolveDatadogEnv
        { otelResourceAttributes := "deployment.environment=staging", ddEnv := "prod" }
      = "staging" ∧
    ("staging" : String) ≠ "prod" := by
  exact ⟨by decide, by decide, by decide, by decide⟩

/-- Claim C4 as amended: the annotator resolves the environment by first
looking at the resource-attribute string; when that string is empty it
uses the explicit override when set and the fixed default advent
otherwise; when the string is non-empty it uses the suffix of the first
comma-separated entry carrying the deployment-environment key, and, when
no entry carries that key, the entire resource-attribute string; in
particular the string deployment.environment=staging,foo=bar with the
override unset resolves to staging. -/
theorem c4_env_resolution (e : Env) :
    (e.otelResourceAttributes = "" → e.ddEnv ≠ "" →
      resolveDatadogEnv e = e.ddEnv) ∧
    (e.otelResourceAttributes = "" → e.ddEnv = "" →
      resolveDatadogEnv e = "advent") ∧
    (e.otelResourceAttributes ≠ "" →
      (∀ part ∈ splitChar ',' e.otelResourceAttributes.data,
        deploymentEnvKey.isPrefixOf part = false) →
      resolveDatadogEnv e = e.otelResourceAttributes) ∧
    (∀ part : List Char, e.otelResourceAttributes ≠ "" →
      (splitChar ',' e.otelResourceAttributes.data).find?
          (fun p => deploymentEnvKey.isPrefixOf p) = some part →
      resolveDatadogEnv e = String.mk (part.drop deploymentEnvKey.length)) ∧
    resolveDatadogEnv { otelResourceAttributes := "deployment.environment=staging,foo=bar" }
      = "staging" := by
  refine ⟨?_, ?_, ?_, ?_, by decide⟩
  · intro ha hd
    simp [resolveDatadogEnv, getEnvD_empty_default, ha, getEnvD, hd]
  · intro ha hd
    simp [resolveDatadogEnv, getEnvD_empty_default, ha, getEnvD, hd]
  · intro ha hnone
    have hfind : (splitChar ',' e.otelResourceAttributes.data).find?
        (fun p => deploymentEnvKey.isPrefixOf p) = none := by
      rw [List.find?_eq_none]
      intro x hx
      simp [hnone x hx]
    simp [resolveDatadogEnv, getEnvD_empty_default, ha, hfind]
  · intro part ha hfind
    simp [resolveDatadogEnv, getEnvD_empty_default, ha, hfind]

/-- Witness for C4's amended theorem: concrete resolutions through each
clause. -/
theorem c4_witness :
    resolveDatadogEnv { ddEnv := "prod" } = "prod" ∧
    resolveDatadogEnv {} = "advent" ∧
    resolveDatadogEnv { otelResourceAttributes := "foo=bar" } = "foo=bar" := by
  refine ⟨(c4_env_resolution { ddEnv := "prod" }).1 rfl (by decide),
    (c4_env_resolution {}).2.1 rfl rfl,
    (c4_env_resolution { otelResourceAttributes := "foo=bar" }).2.2.1
      (by decide) (by decide)⟩

/-- Claim C5: for every trace context, the rendered trace id is exactly 32
lowercase hex characters and the rendered span id exactly 16, both in the
annotator's traceparent segment and in the log decorator's attribute
values; trace id 1, span id 2, sampled true yields the traceparent
00-00000000000000000000000000000001-0000000000000002-01. -/
theorem c5_hex_rendering (ctx : TraceContext) (cfg : TraceHandlerConfig)
    (r : List SlogAttr) :
    (traceIDHex ctx.traceID).length = 32 ∧
    (∀ c ∈ (traceIDHex ctx.traceID).data, isLowerHexChar c = true) ∧
    (spanIDHex ctx.spanID).length = 16 ∧
    (∀ c ∈ (spanIDHex ctx.spanID).data, isLowerHexChar c = true) ∧
    datadogTraceparent ctx =
      "00-" ++ traceIDHex ctx.traceID ++ "-" ++ spanIDHex ctx.spanID ++ "-01" ∧
    (ctx.valid = true → traceHandlerHandle cfg ctx r =
      r ++ [⟨cfg.traceIDKey, .str (traceIDHex ctx.traceID)⟩,
            ⟨cfg.spanIDKey, .str (spanIDHex ctx.spanID)⟩,
            ⟨cfg.traceSampledKey, .bool ctx.sampled⟩]) ∧
    datadogTraceparent (TraceContext.mk true 1 2 true true) =
      "00-00000000000000000000000000000001-0000000000000002-01" := by
  refine ⟨traceIDHex_length ctx.traceID, ?_, spanIDHex_length ctx.spanID, ?_,
    rfl, ?_, by decide⟩
  · exact fun c hc => hexPad_lower 32 ctx.traceID c hc
  · exact fun c hc => hexPad_lower 16 ctx.spanID c hc
  · intro hv
    simp [traceHandlerHandle, hv]

/-- Witness for C5 at the scenario context and the default keys. -/
theorem c5_witness :
    traceHandlerHandle
        (TraceHandlerConfig.mk "trace_id" "span_id" "trace_sampled")
        (TraceContext.mk true 1 2 true true) [] =
      [] ++ [⟨"trace_id", .str (traceIDHex 1)⟩,
             ⟨"span_id", .str (spanIDHex 2)⟩,
             ⟨"trace_sampled", .bool true⟩] :=
  (c5_hex_rendering (TraceContext.mk true 1 2 true true)
    (TraceHandlerConfig.mk "trace_id" "span_id" "trace_sampled")
    []).2.2.2.2.2.1 rfl

/-- Claim C6: handling a log record under an invalid trace context leaves
its attribute list exactly as it was; under a valid context it appends
exactly the three configured attributes, the hex trace id, the hex span id
and the boolean sampling decision, and no others; configuration fields
left unset fall back to the defaults trace_id, span_id and trace_sampled. -/
theorem c6_trace_handler (oc : Option TraceHandlerConfig)
    (ctx : TraceContext) (r : List SlogAttr) :
    (ctx.valid = false →
      traceHandlerHandle (newTraceHandlerConfig oc) ctx r = r) ∧
    (ctx.valid = true →
      traceHandlerHandle (newTraceHandlerConfig oc) ctx r =
        r ++ [⟨(newTraceHandlerConfig oc).traceIDKey, .str (traceIDHex ctx.traceID)⟩,
              ⟨(newTraceHandlerConfig oc).spanIDKey, .str (spanIDHex ctx.spanID)⟩,
              ⟨(newTraceHandlerConfig oc).traceSampledKey, .bool ctx.sampled⟩]) ∧
    newTraceHandlerConfig none =
      TraceHandlerConfig.mk "trace_id" "span_id" "trace_sampled" ∧
    (∀ c : TraceHandlerConfig, c.traceIDKey = "" →
      (newTraceHandlerConfig (some c)).traceIDKey = "trace_id") ∧
    (∀ c : TraceHandlerConfig, c.spanIDKey = "" →
      (newTraceHandlerConfig (some c)).spanIDKey = "span_id") ∧
    (∀ c : TraceHandlerConfig, c.traceSampledKey = "" →
      (newTraceHandlerConfig (some c)).traceSampledKey = "trace_sampled") := by
  refine ⟨?_, ?_, rfl, ?_, ?_, ?_⟩
  · intro hv; simp [traceHandlerHandle, hv]
  · intro hv; simp [traceHandlerHandle, hv]
  · intro c hc; simp [newTraceHandlerConfig, hc]
  · intro c hc; simp [newTraceHandlerConfig, hc]
  · intro c hc; simp [newTraceHandlerConfig, hc]

/-- Witness for C6: a concrete record under a valid context with a partial
configuration override gets exactly the three attributes under the
resolved keys. -/
theorem c6_witness :
    traceHandlerHandle
        (newTraceHandlerConfig (some (TraceHandlerConfig.mk "tid" "" "")))
        (TraceContext.mk true 1 2 false true)
        [⟨"msg", .str "hello"⟩] =
      [⟨"msg", .str "hello"⟩] ++
        [⟨(newTraceHandlerConfig (some (TraceHandlerConfig.mk "tid" "" ""))).traceIDKey,
            .str (traceIDHex 1)⟩,
         ⟨(newTraceHandlerConfig (some (TraceHandlerConfig.mk "tid" "" ""))).spanIDKey,
            .str (spanIDHex 2)⟩,
         ⟨(newTraceHandlerConfig (some (TraceHandlerConfig.mk "tid" "" ""))).traceSampledKey,
            .bool false⟩] :=
  (c6_trace_handler (some (TraceHandlerConfig.mk "tid" "" ""))
    (TraceContext.mk true 1 2 false true) [⟨"msg", .str "hello"⟩]).2.1 rfl

/-- Claim C7: at span start, the classification processor appends the
span.type=sql attribute exactly when the span name carries the
database/sql. prefix or an existing attribute has the db.system key; a
span matching neither is returned unmodified, and the span name is never
changed. -/
theorem c7_span_classification (s : SpanData) :
    ((sqlSpanProcessorOnStart s).attrs = s.attrs ++ [("span.type", "sql")] ↔
      sqlSpanIsSQL s = true) ∧
    (sqlSpanIsSQL s = false → sqlSpanProcessorOnStart s = s) ∧
    (sqlSpanProcessorOnStart s).name = s.name ∧
    (sqlSpanIsSQL s = true ↔
      ("database/sql.".data.isPrefixOf s.name.data = true ∨
        s.attrs.any (fun a => a.1 = "db.system") = true)) ∧
    (sqlSpanIsSQL s = false → ("span.type", "sql") ∉ s.attrs →
      ("span.type", "sql") ∉ (sqlSpanProcessorOnStart s).attrs) := by
  by_cases hc : sqlSpanIsSQL s
  · refine ⟨by simp [sqlSpanProcessorOnStart, hc], by simp [hc], ?_, ?_, by simp [hc]⟩
    · simp [sqlSpanProcessorOnStart, hc]
    · simp [sqlSpanIsSQL]
  · have hc' : sqlSpanIsSQL s = false := by simpa using hc
    refine ⟨?_, fun _ => by simp [sqlSpanProcessorOnStart, hc'], ?_, ?_, ?_⟩
    · simp [sqlSpanProcessorOnStart, hc']
    · simp [sqlSpanProcessorOnStart, hc']
    · simp [sqlSpanIsSQL]
    · intro _ hmem
      simpa [sqlSpanProcessorOnStart, hc'] using hmem

/-- Witness for C7: a span named database/sql.query with no attributes
gets the classification attribute appended. -/
theorem c7_witness :
    (sqlSpanProcessorOnStart (SpanData.mk "database/sql.query" [])).attrs =
      [] ++ [("span.type", "sql")] :=
  (c7_span_classification (SpanData.mk "database/sql.query" [])).1.mpr (by decide)

/-- Claim C8: the annotator is not idempotent: applied to its own output
under the same recording context it prepends a second comment block in
front of the first, so the double application differs from the single
one. -/
theorem c8_not_idempotent (e : Env) (ctx : TraceContext) (q : String)
    (h : ctx.recording = true) :
    addDatadogSQLComment e ctx (addDatadogSQLComment e ctx q) =
      datadogCommentBlock e ctx ++ " " ++
        (datadogCommentBlock e ctx ++ " " ++ q) ∧
    addDatadogSQLComment e ctx (addDatadogSQLComment e ctx q) ≠
      addDatadogSQLComment e ctx q := by
  have h1 := addDatadogSQLComment_recording e ctx q h
  have h2 := addDatadogSQLComment_recording e ctx (addDatadogSQLComment e ctx q) h
  refine ⟨by rw [h2, h1], ?_⟩
  rw [h2, h1]
  intro heq
  have hl := congrArg String.length heq
  simp [String.length_append] at hl
  exact absurd hl.2 (by decide)

/-- Witness for C8: double annotation of a concrete statement yields two
comment blocks and differs from the single annotation. -/
theorem c8_witness :
    addDatadogSQLComment {} (TraceContext.mk true 1 2 true true)
        (addDatadogSQLComment {} (TraceContext.mk true 1 2 true true) "SELECT 1") ≠
      addDatadogSQLComment {} (TraceContext.mk true 1 2 true true) "SELECT 1" :=
  (c8_not_idempotent {} (TraceContext.mk true 1 2 true true) "SELECT 1" rfl).2

/-- Claim C9: escaping expands every single quote of a metadata value to
the two-character sequence backslash quote and keeps every other character
unchanged, preserving in particular the number of single quotes. -/
theorem c9_escape_single_quotes (s : String) :
    (escapeSQLCommentValue s).data =
      s.data.flatMap
        (fun c => if c = squoteChar then [backslashChar, squoteChar] else [c]) ∧
    (escapeSQLCommentValue s).data.count squoteChar =
      s.data.count squoteChar ∧
    escapeSQLCommentValue "a\x27b" = "a\\\x27b" := by
  exact ⟨escapeChars_eq_flatMap s.data, escapeChars_count s.data, by decide⟩

/-- Claim C10: under a recording context the annotator's key/value list is
never empty, the traceparent pair is always in it, and the output always
carries a comment block in front of the statement; the all-values-empty
fallback of returning the statement unchanged is unreachable. -/
theorem c10_comment_always_present (e : Env) (ctx : TraceContext)
    (q : String) (h : ctx.recording = true) :
    datadogCommentParts e ctx ≠ [] ∧
    ("traceparent=\x27" ++ escapeSQLCommentValue (datadogTraceparent ctx) ++ "\x27")
      ∈ datadogCommentParts e ctx ∧
    ∃ mid : String,
      addDatadogSQLComment e ctx q = "/*" ++ mid ++ "*/" ++ " " ++ q := by
  refine ⟨datadogCommentParts_ne_nil e ctx, ?_,
    String.intercalate "," (datadogCommentParts e ctx), ?_⟩
  · simp [datadogCommentParts, datadogTraceparent_ne_empty ctx]
  · rw [addDatadogSQLComment_recording e ctx q h]
    rfl

/-- Witness for C10 at a concrete environment, context and statement. -/
theorem c10_witness :
    datadogCommentParts {} (TraceContext.mk true 1 2 true true) ≠ [] :=
  (c10_comment_always_present {} (TraceContext.mk true 1 2 true true)
    "SELECT 1" rfl).1
